import Mathlib

/-!
Shallow embedding of `backend/server.py` (WikiAI educational chat backend) and
verification of its specification claims.

Modelling conventions:
* Python strings are Lean `String`; the Python string operations used by the
  backend (`lower`, `in`, `split`, `strip`, `endswith`, `len`, `replace`) are
  given explicit executable definitions over `String.data` below, so that every
  definition evaluates inside the kernel.
* Python floats are modelled as `ℚ`.  Every score the backend manipulates is an
  exact multiple of 1/100 (the table weights have two decimals and the content
  bonus is a multiple of 3/100 capped at 15/100), so the float computations are
  exact and `round(x, 2)` returns the same two-decimal value as the rational
  computation; ties never occur, hence the tie-breaking rule of `round` is
  irrelevant on reachable values.
* Calls to external services (the LLM provider, file-parsing libraries, the
  MongoDB store) are modelled by explicit parameters: the AI call outcome is an
  `Except String String` argument, library text extraction is an oracle
  `String` argument, the message-id / session-id / timestamp generators are
  plain arguments, and the database is a `List ChatMessage` threaded through.
* `HTTPException(status, detail)` is `HTTPError`; an endpoint returning
  normally is `Except.ok` (HTTP 200), raising is `Except.error`.
-/

/-! ### String primitives (executable models of the Python string operations) -/

/-- Model of Python list/str prefix test on character lists. -/
def startsWithList : List Char → List Char → Bool
  | [], _ => true
  | _ :: _, [] => false
  | a :: as, b :: bs => a == b && startsWithList as bs

/-- Occurrence of `pat` as a contiguous substring of the second list. -/
def hasSub (pat : List Char) : List Char → Bool
  | [] => pat.isEmpty
  | c :: rest => startsWithList pat (c :: rest) || hasSub pat rest

/-- Model of Python `str.lower()` (ASCII letters; the backend's domain keys and
quality indicators are already lower-case, accented letters are unchanged). -/
def strLower (s : String) : String := ⟨s.data.map Char.toLower⟩

/-- Model of Python `pat in s` (substring containment). -/
def strContains (s pat : String) : Bool := hasSub pat.data s.data

/-- Model of Python `len(s)` (number of characters). -/
def strLength (s : String) : Nat := s.data.length

/-- Model of Python `s.strip()`. -/
def strTrim (s : String) : String :=
  ⟨((s.data.dropWhile Char.isWhitespace).reverse.dropWhile Char.isWhitespace).reverse⟩

/-- Model of Python `s.endswith(pat)`. -/
def strEndsWith (s pat : String) : Bool := startsWithList pat.data.reverse s.data.reverse

/-- Fuelled worker for `strSplitOn`; the fuel is the length of the scanned
list, which bounds the number of steps, so the fuel never runs out. -/
def splitOnFuel (sep : List Char) : Nat → List Char → List Char → List (List Char)
  | _, [], cur => [cur.reverse]
  | 0, l, cur => [cur.reverse ++ l]
  | fuel + 1, c :: rest, cur =>
    if startsWithList sep (c :: rest) then
      cur.reverse :: splitOnFuel sep fuel (List.drop (sep.length - 1) rest) []
    else
      splitOnFuel sep fuel rest (c :: cur)

/-- Model of Python `s.split(sep)` for a non-empty separator: splits at each
non-overlapping occurrence, left to right, keeping empty pieces. -/
def strSplitOn (s sep : String) : List String :=
  (splitOnFuel sep.data s.data.length s.data []).map (fun cs => ⟨cs⟩)

/-- Decimal digit character. -/
def digitChar (n : Nat) : Char := Char.ofNat (48 + n)

/-- Fuelled decimal digit expansion. -/
def natDigitsFuel : Nat → Nat → List Char
  | 0, _ => []
  | fuel + 1, n => if n < 10 then [digitChar n] else natDigitsFuel fuel (n / 10) ++ [digitChar (n % 10)]

/-- Model of Python `str(n)` for a natural number. -/
def natToString (n : Nat) : String := ⟨natDigitsFuel (n + 1) n⟩

/-- Model of Python `sep.join(parts)`. -/
def joinSep (sep : String) : List String → String
  | [] => ""
  | [x] => x
  | x :: y :: xs => x ++ sep ++ joinSep sep (y :: xs)

/-! ### Data model (`server.py` lines 51-82) -/

/-- Persisted chat record (`ChatMessage`, lines 51-59).  `id`, `session_id` and
the creation timestamp are produced by external generators and appear as plain
fields; the timestamp is an abstract clock value. -/
structure ChatMessage where
  id : String
  session_id : String
  message : String
  response : String
  message_type : String
  trust_score : Option ℚ
  sources : Option (List String)
  timestamp : Nat
deriving DecidableEq

/-- Body of `POST /api/chat` (`ChatRequest`, lines 61-64). -/
structure ChatRequest where
  message : String
  message_type : String
  session_id : Option String
deriving DecidableEq

/-- Body of `POST /api/generate-document` (`DocumentRequest`, lines 72-76). -/
structure DocumentRequest where
  content : String
  title : String
  format : String
  filename : Option String
deriving DecidableEq

/-- Body of `POST /api/analyze-file` (`FileAnalysisRequest`, lines 78-82). -/
structure FileAnalysisRequest where
  question : String
  extracted_text : String
  filename : String
  message_type : String
deriving DecidableEq

/-- Model of FastAPI `HTTPException(status_code, detail)`. -/
structure HTTPError where
  status : Nat
  detail : String
deriving DecidableEq

/-- HTTP status observed by the client: a normal return is 200, a raised
`HTTPException` carries its own status. -/
def http_status {α : Type} : Except HTTPError α → Nat
  | .ok _ => 200
  | .error e => e.status

/-! ### Trust scorer (`server.py` lines 85-124) -/

/-- The fixed domain-substring → weight table (`TRUSTED_DOMAINS`, lines 85-103),
in source order, weights written as exact hundredths. -/
def TRUSTED_DOMAINS : List (String × ℚ) :=
  [(".gouv.qc.ca", 98/100),
   (".gouv.ca", 95/100),
   (".edu", 90/100),
   ("quebec.ca", 97/100),
   ("education.gouv.qc.ca", 98/100),
   ("mees.gouv.qc.ca", 98/100),
   ("banq.qc.ca", 88/100),
   ("uqam.ca", 85/100),
   ("umontreal.ca", 85/100),
   ("ulaval.ca", 85/100),
   ("mcgill.ca", 85/100),
   ("cegep", 75/100),
   ("universit", 75/100),
   (".ca", 70/100),
   (".org", 60/100),
   (".com", 40/100),
   ("wikipedia", 65/100)]

/-- The fixed list of quality-indicator words (lines 116-119). -/
def quality_indicators : List String :=
  ["bibliographie", "références", "source", "étude", "recherche",
   "académique", "officiel", "ministère", "université", "peer-review"]

/-- Model of Python `round(q, 2)`: round to the nearest hundredth.  On every
value the scorer reaches the argument is already an exact hundredth, so the
result is exact and the tie rule plays no role. -/
def round2 (q : ℚ) : ℚ := ((Rat.floor (q * 100 + 1/2) : ℤ) : ℚ) / 100

/-- The value of `base_score` in `calculate_trust_score` just before the final
`round(base_score, 2)` (lines 107-122): the domain loop raises the base 0.5 to
each matched weight, then non-empty content adds the capped quality bonus. -/
def trust_score_raw (url : String) (content : String) : ℚ :=
  let base_score : ℚ := 1/2
  let base_score : ℚ :=
    TRUSTED_DOMAINS.foldl
      (fun acc ds => if strContains (strLower url) ds.1 then max acc ds.2 else acc)
      base_score
  if content == "" then base_score
  else
    let quality_count : Nat :=
      quality_indicators.countP (fun indicator => strContains (strLower content) indicator)
    let content_bonus : ℚ := min (15/100) ((quality_count : ℚ) * (3/100))
    min (98/100) (base_score + content_bonus)

/-- `calculate_trust_score` (lines 105-124): the rounded final score. -/
def calculate_trust_score (url : String) (content : String) : ℚ :=
  round2 (trust_score_raw url content)

/-- Table entries whose domain substring occurs (case-insensitively) in the
URL. -/
def matched_entries (url : String) : List (String × ℚ) :=
  TRUSTED_DOMAINS.filter (fun ds => strContains (strLower url) ds.1)

/-- Names of the matched domain substrings. -/
def matched_names (url : String) : List String := (matched_entries url).map Prod.fst

/-- Weights of the matched domain substrings. -/
def matched_weights (url : String) : List ℚ := (matched_entries url).map Prod.snd

/-- Number of quality-indicator words of the fixed list that occur
(case-insensitively) in the content; each word counts once. -/
def quality_count (content : String) : Nat :=
  quality_indicators.countP (fun indicator => strContains (strLower content) indicator)

/-- The content bonus as a function of the quality-indicator count. -/
def content_bonus_of (n : Nat) : ℚ := min (15/100) ((n : ℚ) * (3/100))

/-! ### Source analysis endpoint (`server.py` lines 317-340) -/

/-- One element of the `analyzed_sources` response list. -/
structure AnalyzedSource where
  url : String
  trust_score : ℚ
  trust_level : String
  recommendation : String

/-- The qualitative level computed at lines 328-330. -/
def trust_level (trust_score : ℚ) : String :=
  if 8/10 ≤ trust_score then "Très fiable"
  else if 6/10 ≤ trust_score then "Fiable"
  else if 4/10 ≤ trust_score then "Modérément fiable"
  else "Peu fiable"

/-- The recommendation computed at lines 331-333. -/
def recommendation (trust_score : ℚ) : String :=
  if 7/10 ≤ trust_score then "Source recommandée"
  else if 5/10 ≤ trust_score then "Vérifier avec d'autres sources"
  else "Source non recommandée"

/-- `POST /api/sources/analyze` (lines 317-336): the scorer is invoked with the
default empty content for every URL. -/
def analyze_sources (sources : List String) : List AnalyzedSource :=
  sources.map (fun source_url =>
    let ts := calculate_trust_score source_url ""
    { url := source_url
      trust_score := ts
      trust_level := trust_level ts
      recommendation := recommendation ts })

/-! ### PPTX renderer layout policy (`server.py` lines 395-458) -/

/-- Paragraph extraction (line 410): split the content on blank lines, strip
each piece, drop empty pieces. -/
def split_paragraphs (content : String) : List String :=
  ((strSplitOn content "\n\n").map strTrim).filter (fun p => !(p == ""))

/-- Bullet text built from one sentence of a long paragraph (line 422): the
stripped sentence, with a final period appended unless the unstripped sentence
already ends with one. -/
def sentence_bullet (sentence : String) : String :=
  strTrim sentence ++ (if strEndsWith sentence "." then "" else ".")

/-- One step of the packing loop (lines 422-430): append a bullet to the
current slide and flush the slide once it holds 5 bullets. -/
def push_bullet (st : List (List String) × List String) (b : String) :
    List (List String) × List String :=
  let cur := st.2 ++ [b]
  if 5 ≤ cur.length then (st.1 ++ [cur], []) else (st.1, cur)

/-- Processing of one paragraph (lines 416-430): a paragraph longer than 200
characters is split into sentences on ". " boundaries, each non-blank sentence
becoming its own bullet; a short paragraph is one bullet. -/
def push_para (st : List (List String) × List String) (para : String) :
    List (List String) × List String :=
  if 200 < strLength para then
    (strSplitOn para ". ").foldl
      (fun s sentence =>
        if strTrim sentence == "" then s else push_bullet s (sentence_bullet sentence))
      st
  else
    push_bullet st para

/-- The `slides_content` list of the generator (lines 410-433): the groups of
bullet points of the content slides, in order. -/
def pptx_slides_content (content : String) : List (List String) :=
  let st := (split_paragraphs content).foldl push_para ([], [])
  if st.2.isEmpty then st.1 else st.1 ++ [st.2]

/-- Titles of the content slides (line 443): `"Contenu - Partie {i + 1}"`. -/
def content_slide_titles (content : String) : List String :=
  (List.range (pptx_slides_content content).length).map
    (fun i => "Contenu - Partie " ++ natToString (i + 1))

/-- Total number of slides of the generated deck: the unconditional title slide
(lines 400-407) plus one slide per bullet group. -/
def pptx_total_slide_count (content : String) : Nat :=
  1 + (pptx_slides_content content).length

/-- Specification-side description of the bullets contributed by one paragraph:
a long paragraph contributes one bullet per non-blank ". "-sentence, a short
one contributes itself. -/
def para_bullets (para : String) : List String :=
  if 200 < strLength para then
    ((strSplitOn para ". ").filter (fun sentence => !(strTrim sentence == ""))).map sentence_bullet
  else
    [para]

/-! ### Document generation endpoint (`server.py` lines 498-536) -/

/-- The allowed output formats (line 503). -/
def allowed_formats : List String := ["pdf", "docx", "pptx", "xlsx"]

/-- The media type chosen for each format (lines 515-526). -/
def media_type_of (format : String) : String :=
  if format == "pdf" then "application/pdf"
  else if format == "docx" then
    "application/vnd.openxmlformats-officedocument.wordprocessingml.document"
  else if format == "pptx" then
    "application/vnd.openxmlformats-officedocument.presentationml.presentation"
  else "application/vnd.openxmlformats-officedocument.spreadsheetml.sheet"

/-- Model of Python `title.replace(' ', '_')`. -/
def replaceSpaces (s : String) : String :=
  ⟨s.data.map (fun c => if c == ' ' then '_' else c)⟩

/-- The produced download: which renderer ran, with what inputs, and the
response headers.  The byte buffer itself is opaque; a value of this type
witnesses that document bytes were produced. -/
structure GeneratedDocument where
  format : String
  media_type : String
  filename : String
  title : String
  content : String
deriving DecidableEq

/-- Body of the `try` block of `generate_document` (lines 501-532): format
validation raising a 400, filename derivation (`ts` is the formatted
`datetime.now()` timestamp), then dispatch to the renderer. -/
def generate_document_inner (request : DocumentRequest) (ts : String) :
    Except HTTPError GeneratedDocument :=
  if request.format ∉ allowed_formats then
    .error ⟨400, "Format non supporté. Formats autorisés: " ++ joinSep ", " allowed_formats⟩
  else
    let filename :=
      match request.filename with
      | none => replaceSpaces request.title ++ "_" ++ ts ++ "." ++ request.format
      | some f => if strEndsWith f ("." ++ request.format) then f else f ++ "." ++ request.format
    .ok ⟨request.format, media_type_of request.format, filename, request.title, request.content⟩

/-- `POST /api/generate-document` (lines 498-536).  The `except Exception`
handler has no preceding `except HTTPException: raise`, so the 400 raised by
the format validation is itself caught and re-wrapped into a 500 whose detail
embeds `str(e)`, which for an `HTTPException` is `"{status}: {detail}"`. -/
def generate_document (request : DocumentRequest) (ts : String) :
    Except HTTPError GeneratedDocument :=
  match generate_document_inner request ts with
  | .ok v => .ok v
  | .error e =>
    .error ⟨500, "Erreur lors de la génération du document: " ++
                 natToString e.status ++ ": " ++ e.detail⟩

/-! ### Text extractor (`server.py` lines 126-217) -/

/-- The dispatchable extensions of `extract_text_from_file` (lines 139-188):
one branch per supported extension. -/
def supported_extensions : List String :=
  ["pdf", "docx", "doc", "txt", "xlsx", "xls", "csv", "pptx"]

/-- The dispatch key (line 136): the text after the last dot of the lower-cased
filename, or the empty string when the filename has no dot. -/
def file_extension_of (filename : String) : String :=
  if filename.data.contains '.' then
    List.getLastD (strSplitOn (strLower filename) ".") ""
  else ""

/-- `extract_text_from_file` (lines 126-217).  The per-format library calls
(pdfplumber/PyPDF2, docx2txt, pandas, python-pptx, plain read) are external;
`libText` is the text the library branch selected by the extension would
produce, so the model keeps exactly the backend's own logic: extension
dispatch, the unsupported-format 400, the stripped-empty 400, and the stripped
return value.  Unlike `generate_document`, this function re-raises
`HTTPException` before its generic handler, so both 400s survive. -/
def extract_text_from_file (filename : String) (libText : String) :
    Except HTTPError String :=
  let file_extension := file_extension_of filename
  if file_extension ∈ supported_extensions then
    if strTrim libText == "" then
      .error ⟨400, "Impossible d'extraire le texte de ce fichier. Vérifiez que le fichier n'est pas protégé ou corrompu."⟩
    else .ok (strTrim libText)
  else
    .error ⟨400, "Format de fichier non supporté: " ++ file_extension ++
                 ". Formats acceptés: PDF, DOCX, TXT, XLSX, CSV, PPTX"⟩

/-! ### Chat path (`server.py` lines 219-301) -/

/-- The system prompt table (lines 223-228). -/
def system_messages : List (String × String) :=
  [("je_veux", "Tu es un assistant pédagogique spécialisé pour les étudiants québécois. Réponds de manière claire et éducative aux demandes d'information. Utilise un français québécois accessible et adapté au système éducatif québécois."),
   ("je_recherche", "Tu es un assistant de recherche éducative. Aide les étudiants québécois à comprendre et explorer des sujets scolaires du programme québécois. Propose des pistes de recherche et des angles d'approche pédagogiques."),
   ("sources_fiables", "Tu es un expert en évaluation de sources académiques québécoises et canadiennes. Guide les étudiants vers des sources fiables (.gouv.qc.ca, .ca, .edu, sites gouvernementaux canadiens) et explique comment évaluer la crédibilité d'une source."),
   ("activites", "Tu es un créateur d'activités pédagogiques pour étudiants québécois. Propose des exercices, projets et activités engageantes adaptées au programme scolaire québécois.")]

/-- Prompt selection (line 234): `system_messages.get(message_type,
system_messages["je_veux"])`. -/
def resolve_prompt (message_type : String) : String :=
  match system_messages.find? (fun kv => kv.1 == message_type) with
  | some kv => kv.2
  | none =>
    match system_messages.find? (fun kv => kv.1 == "je_veux") with
    | some kv => kv.2
    | none => ""

/-- The document-intent keywords (lines 238-241). -/
def document_keywords : List String :=
  ["créer", "génère", "document", "fichier", "pdf", "word", "excel", "powerpoint",
   "télécharger", "exporter", "rapport", "résumé", "fiche", "présentation"]

/-- Document-intent detection (line 243). -/
def wants_document (message : String) : Bool :=
  document_keywords.any (fun keyword => strContains (strLower message) keyword)

/-- The message actually sent to the provider (lines 246-250). -/
def outbound_message (message : String) : String :=
  if wants_document message then
    message ++ "\n\nNote: L'utilisateur semble vouloir créer un document. Structurez votre réponse de manière claire avec des titres et des points clés qui pourront être facilement exportés en PDF, Word, PowerPoint ou Excel."
  else message

/-- The fixed apologetic fallback text (line 264). -/
def fallback_response : String := "Désolé, une erreur s'est produite. Veuillez réessayer."

/-- The dict returned by `get_ai_response`; the fallback dict of the handler
has no `can_download` key, hence the `Option Bool`. -/
structure AIResult where
  response : String
  trust_score : Option ℚ
  sources : List String
  can_download : Option Bool
deriving DecidableEq

/-- `get_ai_response` (lines 219-267).  `aiCall` is the outcome of the awaited
provider call; any exception in the `try` block is swallowed into the fixed
fallback dict. -/
def get_ai_response (aiCall : Except String String) (message_type : String) : AIResult :=
  match aiCall with
  | .ok response =>
    { response := response
      trust_score := if message_type == "sources_fiables" then some (95/100) else none
      sources := []
      can_download := some (50 < strLength response) }
  | .error _ =>
    { response := fallback_response
      trust_score := none
      sources := []
      can_download := none }

/-- `POST /api/chat` (lines 274-301).  `fresh` is the generated UUID used when
the request carries no session id, `msgId` the generated record id, `now` the
creation clock; the Mongo insert is modelled as appending to `db` (a write
failure, the only remaining way into this endpoint's own 500 handler, is out of
scope).  Returns the new database contents and the HTTP outcome. -/
def chat_with_ai (db : List ChatMessage) (aiCall : Except String String)
    (request : ChatRequest) (fresh msgId : String) (now : Nat) :
    List ChatMessage × Except HTTPError ChatMessage :=
  let session_id := request.session_id.getD fresh
  let ai_result := get_ai_response aiCall request.message_type
  let chat_message : ChatMessage :=
    { id := msgId
      session_id := session_id
      message := request.message
      response := ai_result.response
      message_type := request.message_type
      trust_score := ai_result.trust_score
      sources := some ai_result.sources
      timestamp := now }
  (db ++ [chat_message], .ok chat_message)

/-! ### Chat history and file analysis (`server.py` lines 303-315, 584-640) -/

/-- `GET /api/chat/history/{session_id}` (lines 303-315): the records of the
session, sorted by ascending timestamp, capped at 100. -/
def get_chat_history (db : List ChatMessage) (session_id : String) : List ChatMessage :=
  (List.insertionSort (fun a b => a.timestamp ≤ b.timestamp)
    (db.filter (fun m => m.session_id == session_id))).take 100

/-- `POST /api/analyze-file` (lines 584-640).  `aiCall` is the outcome of the
provider call; `uuidSession` the UUID generated for the session id of line 622,
`msgId` the generated record id, `now` the creation clock.  The request model
carries no session field, so the session id is always the freshly generated
`"file-{filename}-{uuid}"`.  An AI failure reaches the generic 500 handler. -/
def analyze_file_with_question (db : List ChatMessage) (request : FileAnalysisRequest)
    (aiCall : Except String String) (uuidSession msgId : String) (now : Nat) :
    List ChatMessage × Except HTTPError ChatMessage :=
  match aiCall with
  | .error e => (db, .error ⟨500, "Erreur lors de l'analyse du fichier: " ++ e⟩)
  | .ok response =>
    let chat_message : ChatMessage :=
      { id := msgId
        session_id := "file-" ++ request.filename ++ "-" ++ uuidSession
        message := "📎 Analyse du fichier '" ++ request.filename ++ "': " ++ request.question
        response := response
        message_type := request.message_type
        trust_score := some (90/100)
        sources := some [request.filename]
        timestamp := now }
    (db ++ [chat_message], .ok chat_message)

/-- Exact two-decimal rationals; every value the trust scorer manipulates
satisfies this, which is why `round2` is the identity on reachable scores. -/
def isHundredth (q : ℚ) : Prop := ∃ k : ℤ, q = (k : ℚ) / 100

/-! ### Arithmetic helper lemmas -/

theorem ratFloor_eq_intFloor (q : ℚ) : Rat.floor q = ⌊q⌋ := by
  rw [Rat.floor_def, Rat.floor_def']

theorem round2_int_over_100 (k : ℤ) : round2 ((k : ℚ) / 100) = (k : ℚ) / 100 := by
  unfold round2
  have h1 : ((k : ℚ) / 100) * 100 + 1/2 = (k : ℚ) + 1/2 := by ring
  rw [h1, ratFloor_eq_intFloor]
  have h2 : ⌊(k : ℚ) + 1/2⌋ = k + ⌊(1/2 : ℚ)⌋ := Int.floor_int_add k (1/2)
  have h3 : ⌊(1/2 : ℚ)⌋ = 0 := by
    rw [Int.floor_eq_iff] <;> norm_num
  rw [h2, h3]
  push_cast
  ring

theorem round2_fixed {q : ℚ} (h : isHundredth q) : round2 q = q := by
  obtain ⟨k, rfl⟩ := h
  exact round2_int_over_100 k

theorem isHundredth_half : isHundredth (1/2) := ⟨50, by norm_num⟩

theorem isHundredth_add {a b : ℚ} (ha : isHundredth a) (hb : isHundredth b) :
    isHundredth (a + b) := by
  obtain ⟨k, rfl⟩ := ha
  obtain ⟨m, rfl⟩ := hb
  exact ⟨k + m, by push_cast; ring⟩

theorem isHundredth_max {a b : ℚ} (ha : isHundredth a) (hb : isHundredth b) :
    isHundredth (max a b) := by
  rcases le_total a b with h | h
  · rw [max_eq_right h]; exact hb
  · rw [max_eq_left h]; exact ha

theorem isHundredth_min {a b : ℚ} (ha : isHundredth a) (hb : isHundredth b) :
    isHundredth (min a b) := by
  rcases le_total a b with h | h
  · rw [min_eq_left h]; exact ha
  · rw [min_eq_right h]; exact hb

theorem isHundredth_bonus (n : ℕ) : isHundredth ((n : ℚ) * (3/100)) :=
  ⟨3 * n, by push_cast; ring⟩

theorem isHundredth_weights : ∀ ds ∈ TRUSTED_DOMAINS, isHundredth ds.2 := by
  intro ds h
  fin_cases h <;>
    first
      | (refine ⟨98, ?_⟩; norm_num; done)
      | (refine ⟨95, ?_⟩; norm_num; done)
      | (refine ⟨90, ?_⟩; norm_num; done)
      | (refine ⟨97, ?_⟩; norm_num; done)
      | (refine ⟨88, ?_⟩; norm_num; done)
      | (refine ⟨85, ?_⟩; norm_num; done)
      | (refine ⟨75, ?_⟩; norm_num; done)
      | (refine ⟨70, ?_⟩; norm_num; done)
      | (refine ⟨60, ?_⟩; norm_num; done)
      | (refine ⟨40, ?_⟩; norm_num; done)
      | (refine ⟨65, ?_⟩; norm_num; done)

theorem weights_le : ∀ ds ∈ TRUSTED_DOMAINS, ds.2 ≤ 98/100 := by
  intro ds h
  fin_cases h <;> norm_num

/-! ### Structure lemmas for the trust scorer -/

theorem foldl_guard_max (p : String × ℚ → Bool) :
    ∀ (l : List (String × ℚ)) (a : ℚ),
      l.foldl (fun acc ds => if p ds then max acc ds.2 else acc) a
        = ((l.filter p).map Prod.snd).foldl max a := by
  intro l
  induction l with
  | nil => intro a; rfl
  | cons hd tl ih =>
    intro a
    by_cases h : p hd <;> simp [h, ih]

theorem le_foldl_guard_max (p : String × ℚ → Bool) :
    ∀ (l : List (String × ℚ)) (a : ℚ),
      a ≤ l.foldl (fun acc ds => if p ds then max acc ds.2 else acc) a := by
  intro l
  induction l with
  | nil => intro a; exact le_refl a
  | cons hd tl ih =>
    intro a
    refine le_trans ?_ (ih (if p hd then max a hd.2 else a))
    by_cases h : p hd <;> simp [h]

theorem foldl_guard_max_le (p : String × ℚ → Bool) (b : ℚ) :
    ∀ (l : List (String × ℚ)) (a : ℚ), a ≤ b → (∀ ds ∈ l, ds.2 ≤ b) →
      l.foldl (fun acc ds => if p ds then max acc ds.2 else acc) a ≤ b := by
  intro l
  induction l with
  | nil => intro a ha _; exact ha
  | cons hd tl ih =>
    intro a ha hl
    refine ih _ ?_ (fun ds h => hl ds (List.mem_cons_of_mem hd h))
    by_cases h : p hd
    · simp only [h, if_true]
      exact max_le ha (hl hd (List.mem_cons_self hd tl))
    · simpa [h] using ha

theorem isHundredth_foldl_guard_max (p : String × ℚ → Bool) :
    ∀ (l : List (String × ℚ)) (a : ℚ), isHundredth a → (∀ ds ∈ l, isHundredth ds.2) →
      isHundredth (l.foldl (fun acc ds => if p ds then max acc ds.2 else acc) a) := by
  intro l
  induction l with
  | nil => intro a ha _; exact ha
  | cons hd tl ih =>
    intro a ha hl
    refine ih _ ?_ (fun ds h => hl ds (List.mem_cons_of_mem hd h))
    by_cases h : p hd
    · simp only [h, if_true]
      exact isHundredth_max ha (hl hd (List.mem_cons_self hd tl))
    · simpa [h] using ha

theorem trust_score_raw_isHundredth (url content : String) :
    isHundredth (trust_score_raw url content) := by
  unfold trust_score_raw
  have hfold : isHundredth
      (TRUSTED_DOMAINS.foldl
        (fun acc ds => if strContains (strLower url) ds.1 then max acc ds.2 else acc) (1/2)) :=
    isHundredth_foldl_guard_max _ TRUSTED_DOMAINS (1/2) isHundredth_half isHundredth_weights
  by_cases h : content == ""
  · simpa [h] using hfold
  · simp only [h, if_false]
    exact isHundredth_min ⟨98, by norm_num⟩
      (isHundredth_add hfold (isHundredth_min ⟨15, by norm_num⟩ (isHundredth_bonus _)))

/-- The final rounding of `calculate_trust_score` is the identity: every
reachable score is an exact hundredth. -/
theorem calculate_eq_raw (url content : String) :
    calculate_trust_score url content = trust_score_raw url content :=
  round2_fixed (trust_score_raw_isHundredth url content)

theorem trust_score_raw_empty (url : String) :
    trust_score_raw url "" = (matched_weights url).foldl max (1/2) := by
  unfold trust_score_raw matched_weights matched_entries
  simp only [beq_self_eq_true, if_true]
  exact foldl_guard_max _ TRUSTED_DOMAINS (1/2)

theorem trust_score_raw_bounds (url content : String) :
    1/2 ≤ trust_score_raw url content ∧ trust_score_raw url content ≤ 98/100 := by
  unfold trust_score_raw
  have hlo : (1/2 : ℚ) ≤
      TRUSTED_DOMAINS.foldl
        (fun acc ds => if strContains (strLower url) ds.1 then max acc ds.2 else acc) (1/2) :=
    le_foldl_guard_max _ TRUSTED_DOMAINS (1/2)
  have hhi :
      TRUSTED_DOMAINS.foldl
        (fun acc ds => if strContains (strLower url) ds.1 then max acc ds.2 else acc) (1/2)
        ≤ 98/100 :=
    foldl_guard_max_le _ (98/100) TRUSTED_DOMAINS (1/2) (by norm_num) weights_le
  by_cases h : content == ""
  · simp only [h, if_true]
    exact ⟨hlo, hhi⟩
  · simp only [h, if_false]
    constructor
    · refine le_min (by norm_num) ?_
      have hb : (0 : ℚ) ≤ min (15/100)
          ((quality_indicators.countP
            (fun indicator => strContains (strLower content) indicator) : ℚ) * (3/100)) :=
        le_min (by norm_num) (by positivity)
      linarith
    · exact min_le_left _ _

/-- Keys of the trusted-domain table are pairwise distinct. -/
theorem trusted_domains_keys_nodup : (TRUSTED_DOMAINS.map Prod.fst).Nodup := by decide

theorem keys_nodup_inj {l : List (String × ℚ)} (h : (l.map Prod.fst).Nodup) :
    ∀ p ∈ l, ∀ q ∈ l, p.1 = q.1 → p = q := by
  induction l with
  | nil => intro p hp; exact absurd hp (List.not_mem_nil p)
  | cons hd tl ih =>
    intro p hp q hq hpq
    rw [List.map_cons, List.nodup_cons] at h
    rcases List.mem_cons.mp hp with rfl | hp' <;>
      rcases List.mem_cons.mp hq with rfl | hq'
    · rfl
    · exact absurd (List.mem_map.mpr ⟨q, hq', hpq.symm⟩) h.1
    · exact absurd (List.mem_map.mpr ⟨p, hp', hpq⟩) h.1
    · exact ih h.2 p hp' q hq' hpq

/-! ### Claim C1 -/

/-- Claim C1: with empty content the trust score is the rounded maximum of the
base 0.5 and the weights of all table substrings occurring case-insensitively
in the URL; a URL matching no known substring scores exactly 0.5; a URL whose
matched-substring list is a single substring of weight `w` scores `w` when
`w > 0.5` and `0.5` otherwise; several matches yield the maximum weight, never
a sum (the first conjunct exhibits the score as a fold of `max`). -/
theorem trust_score_domain_policy (url : String) :
    calculate_trust_score url "" = round2 ((matched_weights url).foldl max (1/2))
    ∧ (matched_names url = [] → calculate_trust_score url "" = 1/2)
    ∧ (∀ d w, matched_names url = [d] → (d, w) ∈ TRUSTED_DOMAINS →
        calculate_trust_score url "" = if 1/2 < w then w else 1/2) := by
  have hraw := trust_score_raw_empty url
  have hcalc : calculate_trust_score url "" = (matched_weights url).foldl max (1/2) := by
    rw [calculate_eq_raw, hraw]
  refine ⟨?_, ?_, ?_⟩
  · rw [show calculate_trust_score url "" = round2 (trust_score_raw url "") from rfl, hraw]
  · intro h
    have hent : matched_entries url = [] := by
      unfold matched_names at h
      exact List.map_eq_nil_iff.mp h
    rw [hcalc]
    unfold matched_weights
    rw [hent]
    rfl
  · intro d w hnames hmem
    obtain ⟨p, hpent, hp1⟩ : ∃ p, matched_entries url = [p] ∧ p.1 = d := by
      unfold matched_names at hnames
      cases hent : matched_entries url with
      | nil => rw [hent] at hnames; simp at hnames
      | cons a t =>
        rw [hent] at hnames
        simp only [List.map_cons, List.cons.injEq] at hnames
        exact ⟨a, by rw [List.map_eq_nil_iff.mp hnames.2], hnames.1⟩
    have hpmem : p ∈ TRUSTED_DOMAINS := by
      have hmem' : p ∈ matched_entries url := by
        rw [hpent]; exact List.mem_singleton.mpr rfl
      unfold matched_entries at hmem'
      exact (List.mem_filter.mp hmem').1
    have hpw : p = (d, w) :=
      keys_nodup_inj trusted_domains_keys_nodup p hpmem (d, w) hmem (by rw [hp1])
    rw [hcalc]
    unfold matched_weights
    rw [hpent, hpw]
    simp only [List.map_cons, List.map_nil, List.foldl_cons, List.foldl_nil]
    by_cases h : (1/2 : ℚ) < w
    · rw [if_pos h, max_eq_right h.le]
    · rw [if_neg h, max_eq_left (not_lt.mp h)]

/-- Witness for C1: `https://archive.xyz` matches nothing and scores 0.5;
`https://monsite.org` matches exactly `".org"` (weight 0.60 > 0.5) and scores
0.60. -/
theorem trust_score_domain_policy_witness :
    (matched_names "https://archive.xyz" = []
      ∧ calculate_trust_score "https://archive.xyz" "" = 1/2)
    ∧ (matched_names "https://monsite.org" = [".org"]
      ∧ calculate_trust_score "https://monsite.org" "" = 60/100) := by
  refine ⟨⟨by decide, (trust_score_domain_policy "https://archive.xyz").2.1 (by decide)⟩,
          ⟨by decide, ?_⟩⟩
  have h := (trust_score_domain_policy "https://monsite.org").2.2 ".org" (60/100)
    (by decide) (by simp [TRUSTED_DOMAINS])
  rw [if_pos (by norm_num : (1/2 : ℚ) < 60/100)] at h
  exact h

/-! ### Claim C2 -/

/-- Claim C2: for non-empty content the final score is
`min(0.98, domain score + min(0.15, 0.03 * quality count))` (the rounding is
the identity there, so the equation holds exactly); the content bonus is
monotone non-decreasing in the quality-indicator count; and every returned
score lies in `[0.5, 0.98]`. -/
theorem trust_score_content_policy :
    (∀ url content, ¬ content = "" →
      calculate_trust_score url content
        = min (98/100)
            ((matched_weights url).foldl max (1/2) + content_bonus_of (quality_count content)))
    ∧ (∀ n m : ℕ, n ≤ m → content_bonus_of n ≤ content_bonus_of m)
    ∧ (∀ url content,
        1/2 ≤ calculate_trust_score url content ∧ calculate_trust_score url content ≤ 98/100) := by
  refine ⟨?_, ?_, ?_⟩
  · intro url content h
    rw [calculate_eq_raw]
    unfold trust_score_raw
    have hbeq : (content == "") = false := beq_eq_false_iff_ne.mpr h
    simp only [hbeq, Bool.false_eq_true, if_false]
    rw [foldl_guard_max]
    rfl
  · intro n m h
    unfold content_bonus_of
    refine min_le_min (le_refl _) ?_
    have hc : (n : ℚ) ≤ m := Nat.cast_le.mpr h
    nlinarith
  · intro url content
    rw [calculate_eq_raw]
    exact trust_score_raw_bounds url content

/-- Witness for C2 at a concrete URL and non-empty content: the hypotheses of
the first two conjuncts are discharged at `content = "Une étude avec source"`
and at the counts 2 ≤ 5. -/
theorem trust_score_content_policy_witness :
    (¬ ("Une étude avec source" = ""))
    ∧ calculate_trust_score "https://exemple.com" "Une étude avec source"
        = min (98/100)
            ((matched_weights "https://exemple.com").foldl max (1/2)
              + content_bonus_of (quality_count "Une étude avec source"))
    ∧ (2 ≤ 5 ∧ content_bonus_of 2 ≤ content_bonus_of 5)
    ∧ 1/2 ≤ calculate_trust_score "https://exemple.com" "Une étude avec source" :=
  ⟨by decide,
   trust_score_content_policy.1 "https://exemple.com" "Une étude avec source" (by decide),
   ⟨by decide, trust_score_content_policy.2.1 2 5 (by decide)⟩,
   (trust_score_content_policy.2.2 "https://exemple.com" "Une étude avec source").1⟩

/-! ### Claim C3 -/

/-- Claim C3: the qualitative level and the recommendation are boundary-exact
threshold functions of the score: `≥ 0.8` gives "Très fiable" (in particular
at exactly 0.8), `≥ 0.6` "Fiable", `≥ 0.4` "Modérément fiable", otherwise
"Peu fiable"; `≥ 0.7` gives "Source recommandée" (in particular at exactly
0.7), `≥ 0.5` "Vérifier avec d'autres sources", otherwise "Source non
recommandée". -/
theorem classification_thresholds (s : ℚ) :
    (trust_level s = "Très fiable" ↔ 8/10 ≤ s)
    ∧ (trust_level s = "Fiable" ↔ 6/10 ≤ s ∧ s < 8/10)
    ∧ (trust_level s = "Modérément fiable" ↔ 4/10 ≤ s ∧ s < 6/10)
    ∧ (trust_level s = "Peu fiable" ↔ s < 4/10)
    ∧ (recommendation s = "Source recommandée" ↔ 7/10 ≤ s)
    ∧ (recommendation s = "Vérifier avec d'autres sources" ↔ 5/10 ≤ s ∧ s < 7/10)
    ∧ (recommendation s = "Source non recommandée" ↔ s < 5/10)
    ∧ trust_level (8/10) = "Très fiable"
    ∧ recommendation (7/10) = "Source recommandée" := by
  unfold trust_level recommendation
  refine ⟨?_, ?_, ?_, ?_, ?_, ?_, ?_, ?_, ?_⟩
  · split_ifs with h1 h2 h3 <;> simp_all <;> linarith
  · split_ifs with h1 h2 h3 <;> simp_all <;> first | linarith | (intro h; linarith)
  · split_ifs with h1 h2 h3 <;> simp_all <;> first | linarith | (intro h; linarith)
  · split_ifs with h1 h2 h3 <;> simp_all <;> linarith
  · split_ifs with h1 h2 <;> simp_all <;> linarith
  · split_ifs with h1 h2 <;> simp_all <;> first | linarith | (intro h; linarith)
  · split_ifs with h1 h2 <;> simp_all <;> linarith
  · rw [if_pos (by norm_num : (8 : ℚ)/10 ≤ 8/10)]
  · rw [if_pos (by norm_num : (7 : ℚ)/10 ≤ 7/10)]

/-! ### Claim C9 -/

/-- Claim C9: `POST /api/sources/analyze` always invokes the scorer with empty
content, so every returned trust score is exactly the rounded pure domain
score and the content bonus never contributes on this path. -/
theorem analyze_sources_pure_domain (sources : List String) :
    (analyze_sources sources).map (fun a => a.trust_score)
        = sources.map (fun u => calculate_trust_score u "")
    ∧ (analyze_sources sources).map (fun a => a.trust_score)
        = sources.map (fun u => round2 ((matched_weights u).foldl max (1/2)))
    ∧ (analyze_sources sources).map (fun a => a.url) = sources := by
  refine ⟨?_, ?_, ?_⟩
  · simp [analyze_sources, List.map_map]
  · simp only [analyze_sources, List.map_map]
    refine List.map_congr_left ?_
    intro u _
    show calculate_trust_score u "" = round2 ((matched_weights u).foldl max (1/2))
    rw [show calculate_trust_score u "" = round2 (trust_score_raw u "") from rfl,
      trust_score_raw_empty]
  · simp only [analyze_sources, List.map_map]
    exact (List.map_congr_left fun u _ => rfl).trans (List.map_id sources)

/-! ### Packing lemmas for the PPTX renderer -/

theorem foldl_guard_filter {β : Type} (q : String → Bool) (f : β → String → β) :
    ∀ (l : List String) (st : β),
      l.foldl (fun s x => if q x then s else f s x) st
        = (l.filter (fun x => !q x)).foldl f st := by
  intro l
  induction l with
  | nil => intro st; rfl
  | cons hd tl ih =>
    intro st
    cases h : q hd
    · rw [List.filter_cons_of_pos (by simp [h])]
      simp only [List.foldl_cons]
      rw [if_neg (by simp [h])]
      exact ih _
    · rw [List.filter_cons_of_neg (by simp [h])]
      simp only [List.foldl_cons]
      rw [if_pos h]
      exact ih _

theorem push_para_eq_bullets (st : List (List String) × List String) (para : String) :
    push_para st para = (para_bullets para).foldl push_bullet st := by
  unfold push_para para_bullets
  by_cases h : 200 < strLength para
  · simp only [if_pos h]
    rw [List.foldl_map,
      foldl_guard_filter (fun sentence => strTrim sentence == "")
        (fun s sentence => push_bullet s (sentence_bullet sentence)) (strSplitOn para ". ") st]
  · simp only [if_neg h]
    rfl

theorem foldl_push_para_flat (ps : List String) :
    ∀ st, ps.foldl push_para st = (ps.flatMap para_bullets).foldl push_bullet st := by
  induction ps with
  | nil => intro st; rfl
  | cons hd tl ih =>
    intro st
    rw [List.foldl_cons, List.flatMap_cons, List.foldl_append, push_para_eq_bullets, ih]

theorem foldl_push_bullet_inv (bs : List String) :
    ∀ st : List (List String) × List String,
      (∀ g ∈ st.1, g.length ≤ 5) → st.2.length ≤ 4 →
      (∀ g ∈ (bs.foldl push_bullet st).1, g.length ≤ 5)
        ∧ (bs.foldl push_bullet st).2.length ≤ 4 := by
  induction bs with
  | nil => intro st h1 h2; exact ⟨h1, h2⟩
  | cons b bs ih =>
    intro st h1 h2
    rw [List.foldl_cons]
    apply ih
    · intro g hg
      unfold push_bullet at hg
      by_cases h5 : 5 ≤ (st.2 ++ [b]).length
      · simp only [if_pos h5] at hg
        rcases List.mem_append.mp hg with hg' | hg'
        · exact h1 g hg'
        · rw [List.mem_singleton.mp hg', List.length_append]
          simp
          omega
      · simp only [if_neg h5] at hg
        exact h1 g hg
    · unfold push_bullet
      by_cases h5 : 5 ≤ (st.2 ++ [b]).length
      · rw [if_pos h5]
        simp
      · simp only [if_neg h5]
        rw [List.length_append] at h5
        simp at h5
        simp [List.length_append]
        omega

theorem foldl_push_bullet_flatten (bs : List String) :
    ∀ st, ((bs.foldl push_bullet st).1).flatten ++ (bs.foldl push_bullet st).2
        = st.1.flatten ++ st.2 ++ bs := by
  induction bs with
  | nil => intro st; simp
  | cons b bs ih =>
    intro st
    rw [List.foldl_cons, ih]
    unfold push_bullet
    by_cases h5 : 5 ≤ (st.2 ++ [b]).length
    · simp only [if_pos h5]
      simp [List.flatten_append, List.append_assoc]
    · simp only [if_neg h5]
      simp [List.append_assoc]

/-! ### Claim C4 -/

set_option maxHeartbeats 1000000 in
/-- Claim C4: a content of 12 paragraphs, each at most 200 characters, yields
exactly 3 content slides holding 5, 5 and 2 bullets, titled "Contenu - Partie
1/2/3", after the single title slide (4 slides in total); in general every
content slide holds at most 5 bullets, and the bullets are the paragraphs in
order, paragraphs longer than 200 characters being first split into sentences
on ". " boundaries. -/
theorem pptx_slide_packing :
    (∀ (content p1 p2 p3 p4 p5 p6 p7 p8 p9 p10 p11 p12 : String),
      split_paragraphs content = [p1, p2, p3, p4, p5, p6, p7, p8, p9, p10, p11, p12] →
      (∀ p ∈ [p1, p2, p3, p4, p5, p6, p7, p8, p9, p10, p11, p12], strLength p ≤ 200) →
      pptx_slides_content content = [[p1, p2, p3, p4, p5], [p6, p7, p8, p9, p10], [p11, p12]]
      ∧ content_slide_titles content
          = ["Contenu - Partie 1", "Contenu - Partie 2", "Contenu - Partie 3"]
      ∧ pptx_total_slide_count content = 4)
    ∧ (∀ content, ∀ g ∈ pptx_slides_content content, g.length ≤ 5)
    ∧ (∀ content, (pptx_slides_content content).flatten
        = (split_paragraphs content).flatMap para_bullets) := by
  refine ⟨?_, ?_, ?_⟩
  · intro content p1 p2 p3 p4 p5 p6 p7 p8 p9 p10 p11 p12 hsplit hlen
    have e : ∀ p ∈ [p1, p2, p3, p4, p5, p6, p7, p8, p9, p10, p11, p12],
        para_bullets p = [p] := by
      intro p hp
      unfold para_bullets
      rw [if_neg (Nat.not_lt.mpr (hlen p hp))]
    have hb : [p1, p2, p3, p4, p5, p6, p7, p8, p9, p10, p11, p12].flatMap para_bullets
        = [p1, p2, p3, p4, p5, p6, p7, p8, p9, p10, p11, p12] := by
      simp only [List.flatMap_cons, List.flatMap_nil,
        e p1 (by simp), e p2 (by simp), e p3 (by simp), e p4 (by simp),
        e p5 (by simp), e p6 (by simp), e p7 (by simp), e p8 (by simp),
        e p9 (by simp), e p10 (by simp), e p11 (by simp), e p12 (by simp)]
      rfl
    have hslides : pptx_slides_content content
        = [[p1, p2, p3, p4, p5], [p6, p7, p8, p9, p10], [p11, p12]] := by
      simp only [pptx_slides_content]
      rw [hsplit, foldl_push_para_flat, hb]
      simp [push_bullet]
    refine ⟨hslides, ?_, ?_⟩
    · unfold content_slide_titles
      rw [hslides]
      simp only [List.length_cons, List.length_nil]
      decide
    · unfold pptx_total_slide_count
      rw [hslides]
      simp
  · intro content g hg
    simp only [pptx_slides_content] at hg
    rw [foldl_push_para_flat] at hg
    have hinv := foldl_push_bullet_inv ((split_paragraphs content).flatMap para_bullets)
      ([], []) (by simp) (by simp)
    by_cases he : (((split_paragraphs content).flatMap para_bullets).foldl
        push_bullet ([], [])).2.isEmpty
    · rw [if_pos he] at hg
      exact hinv.1 g hg
    · rw [if_neg he] at hg
      rcases List.mem_append.mp hg with hg' | hg'
      · exact hinv.1 g hg'
      · rw [List.mem_singleton.mp hg']
        exact le_trans hinv.2 (by norm_num)
  · intro content
    simp only [pptx_slides_content]
    rw [foldl_push_para_flat]
    have h := foldl_push_bullet_flatten ((split_paragraphs content).flatMap para_bullets)
      ([], [])
    simp only [List.flatten_nil, List.nil_append] at h
    by_cases he : (((split_paragraphs content).flatMap para_bullets).foldl
        push_bullet ([], [])).2.isEmpty
    · rw [if_pos he]
      have h2 : (((split_paragraphs content).flatMap para_bullets).foldl
          push_bullet ([], [])).2 = [] := by
        simpa using he
      rw [h2, List.append_nil] at h
      exact h
    · rw [if_neg he, List.flatten_append]
      simpa using h

set_option maxHeartbeats 1000000 in
/-- Witness for C4: a concrete 12-paragraph content produces exactly the 5+5+2
packing with the three numbered titles and 4 slides in total. -/
theorem pptx_slide_packing_witness :
    split_paragraphs "P1\n\nP2\n\nP3\n\nP4\n\nP5\n\nP6\n\nP7\n\nP8\n\nP9\n\nP10\n\nP11\n\nP12"
        = ["P1", "P2", "P3", "P4", "P5", "P6", "P7", "P8", "P9", "P10", "P11", "P12"]
    ∧ (∀ p ∈ ["P1", "P2", "P3", "P4", "P5", "P6", "P7", "P8", "P9", "P10", "P11", "P12"],
        strLength p ≤ 200)
    ∧ pptx_slides_content "P1\n\nP2\n\nP3\n\nP4\n\nP5\n\nP6\n\nP7\n\nP8\n\nP9\n\nP10\n\nP11\n\nP12"
        = [["P1", "P2", "P3", "P4", "P5"], ["P6", "P7", "P8", "P9", "P10"], ["P11", "P12"]]
    ∧ content_slide_titles "P1\n\nP2\n\nP3\n\nP4\n\nP5\n\nP6\n\nP7\n\nP8\n\nP9\n\nP10\n\nP11\n\nP12"
        = ["Contenu - Partie 1", "Contenu - Partie 2", "Contenu - Partie 3"]
    ∧ pptx_total_slide_count "P1\n\nP2\n\nP3\n\nP4\n\nP5\n\nP6\n\nP7\n\nP8\n\nP9\n\nP10\n\nP11\n\nP12"
        = 4 := by
  have h := pptx_slide_packing.1
    "P1\n\nP2\n\nP3\n\nP4\n\nP5\n\nP6\n\nP7\n\nP8\n\nP9\n\nP10\n\nP11\n\nP12"
    "P1" "P2" "P3" "P4" "P5" "P6" "P7" "P8" "P9" "P10" "P11" "P12" (by decide) (by decide)
  exact ⟨by decide, by decide, h.1, h.2.1, h.2.2⟩

/-! ### Claim C5 -/

/-- Claim C5: on the chat path every failure of the outbound AI call is
swallowed into the fixed apologetic fallback text, and `POST /api/chat` still
answers HTTP 200 with the degraded persisted body, never an HTTP error. -/
theorem chat_ai_failure_swallowed :
    (∀ (e : String) (message_type : String),
      get_ai_response (.error e) message_type
        = { response := fallback_response, trust_score := none, sources := [],
            can_download := none })
    ∧ (∀ (db : List ChatMessage) (e : String) (request : ChatRequest)
        (fresh msgId : String) (now : Nat),
        http_status (chat_with_ai db (.error e) request fresh msgId now).2 = 200
        ∧ (chat_with_ai db (.error e) request fresh msgId now).2
            = .ok { id := msgId
                    session_id := request.session_id.getD fresh
                    message := request.message
                    response := fallback_response
                    message_type := request.message_type
                    trust_score := none
                    sources := some []
                    timestamp := now }
        ∧ ∀ err, (chat_with_ai db (.error e) request fresh msgId now).2 ≠ .error err) := by
  refine ⟨fun e mt => rfl, fun db e request fresh msgId now => ⟨rfl, rfl, fun err h => ?_⟩⟩
  simp [chat_with_ai] at h

/-! ### Claim C6 -/

/-- Claim C6 (code bug): a document request with an unsupported format does
not surface as a 400 client validation error: the endpoint's catch-all
`except Exception` intercepts its own `HTTPException(400)` and re-raises a
generic 500 whose detail embeds the stringified 400; no document is
produced. -/
theorem generate_document_invalid_format_bug :
    generate_document ⟨"contenu", "Titre", "html", none⟩ "20250101_000000"
        = .error ⟨500, "Erreur lors de la génération du document: 400: Format non supporté. Formats autorisés: pdf, docx, pptx, xlsx"⟩
    ∧ http_status (generate_document ⟨"contenu", "Titre", "html", none⟩ "20250101_000000") = 500
    ∧ ∀ doc, generate_document ⟨"contenu", "Titre", "html", none⟩ "20250101_000000"
        ≠ .ok doc := by
  have h1 : generate_document ⟨"contenu", "Titre", "html", none⟩ "20250101_000000"
      = .error ⟨500, "Erreur lors de la génération du document: 400: Format non supporté. Formats autorisés: pdf, docx, pptx, xlsx"⟩ := by
    rfl
  refine ⟨h1, by rw [h1]; rfl, fun doc h => by rw [h1] at h; exact Except.noConfusion h⟩

/-! ### Claim C7 -/

/-- Claim C7: an upload whose declared extension is outside the supported set
always fails with the unsupported-format 400 naming the accepted formats and
never returns extracted text; a supported upload whose extracted text strips
to empty fails with the empty-content 400 instead of returning text. -/
theorem extract_text_dispatch_policy :
    (∀ filename libText, file_extension_of filename ∉ supported_extensions →
      extract_text_from_file filename libText
        = .error ⟨400, "Format de fichier non supporté: " ++ file_extension_of filename ++
                       ". Formats acceptés: PDF, DOCX, TXT, XLSX, CSV, PPTX"⟩
      ∧ ∀ t, extract_text_from_file filename libText ≠ .ok t)
    ∧ (∀ filename libText, file_extension_of filename ∈ supported_extensions →
      strTrim libText = "" →
      extract_text_from_file filename libText
        = .error ⟨400, "Impossible d'extraire le texte de ce fichier. Vérifiez que le fichier n'est pas protégé ou corrompu."⟩) := by
  constructor
  · intro filename libText h
    have he : extract_text_from_file filename libText
        = .error ⟨400, "Format de fichier non supporté: " ++ file_extension_of filename ++
                       ". Formats acceptés: PDF, DOCX, TXT, XLSX, CSV, PPTX"⟩ := by
      unfold extract_text_from_file
      rw [if_neg h]
    exact ⟨he, fun t ht => by rw [he] at ht; exact Except.noConfusion ht⟩
  · intro filename libText h hempty
    unfold extract_text_from_file
    rw [if_pos h, if_pos (beq_iff_eq.mpr hempty)]

/-- Witness for C7: `notes.xyz` fails with the unsupported-format error;
`notes.txt` whose library text is whitespace fails with the empty-content
error. -/
theorem extract_text_dispatch_policy_witness :
    (file_extension_of "notes.xyz" ∉ supported_extensions
      ∧ extract_text_from_file "notes.xyz" "du texte"
          = .error ⟨400, "Format de fichier non supporté: " ++ file_extension_of "notes.xyz" ++
                         ". Formats acceptés: PDF, DOCX, TXT, XLSX, CSV, PPTX"⟩)
    ∧ (file_extension_of "notes.txt" ∈ supported_extensions
      ∧ strTrim "  \n  " = ""
      ∧ extract_text_from_file "notes.txt" "  \n  "
          = .error ⟨400, "Impossible d'extraire le texte de ce fichier. Vérifiez que le fichier n'est pas protégé ou corrompu."⟩) :=
  ⟨⟨by decide, (extract_text_dispatch_policy.1 "notes.xyz" "du texte" (by decide)).1⟩,
   ⟨by decide, by decide,
    extract_text_dispatch_policy.2 "notes.txt" "  \n  " (by decide) (by decide)⟩⟩

/-! ### Claim C8 -/

/-- Claim C8 as amended: when the AI call succeeds, the persisted record's
trust score is the fixed 0.95 exactly for message type "sources_fiables"
(regardless of message content) and absent for every other type; when the AI
call fails, the persisted record's trust score is absent even for
"sources_fiables". -/
theorem chat_trust_score_policy (db : List ChatMessage) (request : ChatRequest)
    (fresh msgId : String) (now : Nat) :
    (∀ response,
      (chat_with_ai db (.ok response) request fresh msgId now).1.map (fun m => m.trust_score)
        = db.map (fun m => m.trust_score)
          ++ [if request.message_type == "sources_fiables" then some (95/100) else none])
    ∧ (∀ e,
      (chat_with_ai db (.error e) request fresh msgId now).1.map (fun m => m.trust_score)
        = db.map (fun m => m.trust_score) ++ [none]) := by
  constructor
  · intro response
    simp [chat_with_ai, get_ai_response]
  · intro e
    simp [chat_with_ai, get_ai_response]

/-- Counterexample to C8 as frozen: a chat request of type "sources_fiables"
whose AI call fails is still persisted, but with no trust score, so not every
"sources_fiables" request yields a persisted 0.95. -/
theorem chat_trust_score_counterexample :
    (chat_with_ai [] (.error "panne du fournisseur")
        ⟨"Quelles sources choisir?", "sources_fiables", none⟩ "s0" "m0" 7).1.map
          (fun m => m.trust_score) = [none]
    ∧ ¬ (chat_with_ai [] (.error "panne du fournisseur")
        ⟨"Quelles sources choisir?", "sources_fiables", none⟩ "s0" "m0" 7).1.map
          (fun m => m.trust_score) = [some (95/100)] := by
  constructor
  · rfl
  · intro h
    simp [chat_with_ai, get_ai_response] at h

/-! ### Claim C10 -/

/-- Claim C10: the file-analysis path builds its session id as
`"file-<filename>-<uuid>"` from a freshly generated UUID (the request model
carries no session field), so the persisted record lands in its own new
single-record session: it never appears in the history of any other session,
and when the generated id is new the history of its session is exactly that
one record. -/
theorem analyze_file_fresh_session (db : List ChatMessage) (request : FileAnalysisRequest)
    (response uuidSession msgId : String) (now : Nat) :
    ((analyze_file_with_question db request (.ok response) uuidSession msgId now).2
        = .ok { id := msgId
                session_id := "file-" ++ request.filename ++ "-" ++ uuidSession
                message := "📎 Analyse du fichier '" ++ request.filename ++ "': "
                  ++ request.question
                response := response
                message_type := request.message_type
                trust_score := some (90/100)
                sources := some [request.filename]
                timestamp := now })
    ∧ (∀ sid m,
        (analyze_file_with_question db request (.ok response) uuidSession msgId now).2 = .ok m →
        sid ≠ m.session_id →
        m ∉ get_chat_history
          (analyze_file_with_question db request (.ok response) uuidSession msgId now).1 sid)
    ∧ ((∀ x ∈ db, x.session_id ≠ "file-" ++ request.filename ++ "-" ++ uuidSession) →
        ∀ m,
        (analyze_file_with_question db request (.ok response) uuidSession msgId now).2 = .ok m →
        get_chat_history
          (analyze_file_with_question db request (.ok response) uuidSession msgId now).1
          m.session_id = [m]) := by
  refine ⟨rfl, ?_, ?_⟩
  · intro sid m _ hne hmem
    unfold get_chat_history at hmem
    have h2 := List.take_subset 100 _ hmem
    have h3 := ((List.perm_insertionSort
      (fun a b : ChatMessage => a.timestamp ≤ b.timestamp) _).mem_iff).mp h2
    have h4 := (List.mem_filter.mp h3).2
    have h5 : m.session_id = sid := by simpa using h4
    exact hne h5.symm
  · intro hfresh m hok
    injection hok with hm
    subst hm
    unfold get_chat_history
    have hfil : ((analyze_file_with_question db request (.ok response) uuidSession msgId now).1).filter
        (fun x => x.session_id == "file-" ++ request.filename ++ "-" ++ uuidSession)
        = [{ id := msgId
             session_id := "file-" ++ request.filename ++ "-" ++ uuidSession
             message := "📎 Analyse du fichier '" ++ request.filename ++ "': "
               ++ request.question
             response := response
             message_type := request.message_type
             trust_score := some (90/100)
             sources := some [request.filename]
             timestamp := now }] := by
      show (db ++ [_]).filter _ = _
      rw [List.filter_append]
      have h1 : db.filter
          (fun x => x.session_id == "file-" ++ request.filename ++ "-" ++ uuidSession) = [] := by
        rw [List.filter_eq_nil]
        intro x hx
        simpa using hfresh x hx
      rw [h1]
      simp
    show (List.insertionSort _ (List.filter _ _)).take 100 = _
    rw [hfil]
    rw [show List.insertionSort (fun a b : ChatMessage => a.timestamp ≤ b.timestamp)
        [{ id := msgId
           session_id := "file-" ++ request.filename ++ "-" ++ uuidSession
           message := "📎 Analyse du fichier '" ++ request.filename ++ "': "
             ++ request.question
           response := response
           message_type := request.message_type
           trust_score := some (90/100)
           sources := some [request.filename]
           timestamp := now }]
      = [{ id := msgId
           session_id := "file-" ++ request.filename ++ "-" ++ uuidSession
           message := "📎 Analyse du fichier '" ++ request.filename ++ "': "
             ++ request.question
           response := response
           message_type := request.message_type
           trust_score := some (90/100)
           sources := some [request.filename]
           timestamp := now }] from rfl]
    rfl

/-- Witness for C10 at a concrete request: with an empty database the analysed
file gets session `"file-rapport.pdf-u1"`, its record is absent from the
history of any other session and is the single record of its own session. -/
theorem analyze_file_fresh_session_witness :
    ((analyze_file_with_question [] ⟨"Quelle est la thèse?", "texte extrait", "rapport.pdf", "je_veux"⟩
        (.ok "La thèse est...") "u1" "m1" 5).2
      = .ok { id := "m1"
              session_id := "file-" ++ "rapport.pdf" ++ "-" ++ "u1"
              message := "📎 Analyse du fichier '" ++ "rapport.pdf" ++ "': " ++ "Quelle est la thèse?"
              response := "La thèse est..."
              message_type := "je_veux"
              trust_score := some (90/100)
              sources := some ["rapport.pdf"]
              timestamp := 5 })
    ∧ ("autre-session" ≠ "file-rapport.pdf-u1"
      ∧ ∀ m, (analyze_file_with_question [] ⟨"Quelle est la thèse?", "texte extrait", "rapport.pdf", "je_veux"⟩
          (.ok "La thèse est...") "u1" "m1" 5).2 = .ok m →
        m ∉ get_chat_history
          (analyze_file_with_question [] ⟨"Quelle est la thèse?", "texte extrait", "rapport.pdf", "je_veux"⟩
            (.ok "La thèse est...") "u1" "m1" 5).1 "autre-session")
    ∧ (∀ m, (analyze_file_with_question [] ⟨"Quelle est la thèse?", "texte extrait", "rapport.pdf", "je_veux"⟩
          (.ok "La thèse est...") "u1" "m1" 5).2 = .ok m →
        get_chat_history
          (analyze_file_with_question [] ⟨"Quelle est la thèse?", "texte extrait", "rapport.pdf", "je_veux"⟩
            (.ok "La thèse est...") "u1" "m1" 5).1 m.session_id = [m]) := by
  have h := analyze_file_fresh_session []
    ⟨"Quelle est la thèse?", "texte extrait", "rapport.pdf", "je_veux"⟩
    "La thèse est..." "u1" "m1" 5
  refine ⟨h.1, ⟨by decide, ?_⟩, ?_⟩
  · intro m hm
    have hne : "autre-session" ≠ m.session_id := by
      injection hm with hm2
      rw [← hm2]
      decide
    exact h.2.1 "autre-session" m hm hne
  · intro m hm
    exact h.2.2 (by intro x hx; exact absurd hx (List.not_mem_nil x)) m hm
